import Mathlib

/-!
Shallow embedding of the forecast engine of `src/app.py` and `src/newapp.py`
(repository `CA-Aakash/fpna-forecast-app`).

Numeric spreadsheet cells are modelled as exact rationals (`ℚ`); text cells
as strings.  A pandas row is modelled as an association list from column
name to cell value, and a dataframe as a list of such rows.  The optional
fields of an input record (`Region`, `Year`, `Depreciation`, `Tax Rate`) are
`Option`-valued, mirroring the `row.get(key, default)` lookups of the
source; a `row[key]` bracket access on a possibly missing key is modelled
as an `Option`-returning function (`none` = `KeyError`).
-/

set_option autoImplicit false

/-- A spreadsheet cell value: numeric or text. -/
inductive Value where
  | num (q : ℚ)
  | str (s : String)
deriving DecidableEq

/-- One input row of the forecast engine (the spec's `InputRecord`).
Fields that the source reads with `row.get(key, default)` are `Option`s;
`none` means the column is absent from the uploaded dataset. -/
structure InputRecord where
  scenario : Value
  product : Value
  region? : Option Value
  year? : Option Value
  unitsSold : ℚ
  pricePerUnit : ℚ
  fxRate : ℚ
  cogsPct : ℚ
  operatingExpenses : ℚ
  depreciation? : Option ℚ
  taxRate? : Option ℚ
deriving DecidableEq

namespace App

/-- The output record returned by `calculate_forecast_from_row` in
`src/app.py` (lines 30-47): passthrough `Scenario`/`Product`/`Region`/`Year`
plus the twelve derived metrics.  `app.py` does not emit the input's
`Operating Expenses`/`Depreciation` in its output dictionary. -/
structure OutputRecord where
  scenario : Value
  product : Value
  region : Value
  year : Value
  revenueLocal : ℚ
  revenueGroup : ℚ
  cogs : ℚ
  grossMargin : ℚ
  grossMarginPct : ℚ
  ebitda : ℚ
  operatingProfit : ℚ
  operatingMarginPct : ℚ
  tax : ℚ
  netIncome : ℚ
  netMarginPct : ℚ
  cashFlow : ℚ
deriving DecidableEq

/-- `calculate_forecast_from_row` of `src/app.py` (lines 14-47).
`row.get('Depreciation', 0)` is `row.depreciation?.getD 0`,
`row.get('Tax Rate', 0.25)` is `row.taxRate?.getD (25/100)`, and the Python
truthiness guard `x / revenue_local if revenue_local else 0` is the
`if revenue_local ≠ 0` conditional. -/
def calculate_forecast_from_row (row : InputRecord) : OutputRecord :=
  let revenue_local := row.unitsSold * row.pricePerUnit
  let revenue_group := revenue_local * row.fxRate
  let cogs := revenue_local * row.cogsPct
  let gross_margin := revenue_local - cogs
  let ebitda := gross_margin - row.operatingExpenses + row.depreciation?.getD 0
  let operating_profit := ebitda - row.depreciation?.getD 0
  let tax := operating_profit * row.taxRate?.getD (25/100)
  let net_income := operating_profit - tax
  let gross_margin_pct := if revenue_local ≠ 0 then gross_margin / revenue_local else 0
  let operating_margin_pct := if revenue_local ≠ 0 then operating_profit / revenue_local else 0
  let net_margin_pct := if revenue_local ≠ 0 then net_income / revenue_local else 0
  let cash_flow := net_income + row.depreciation?.getD 0
  { scenario := row.scenario,
    product := row.product,
    region := row.region?.getD (Value.str "Unknown"),
    year := row.year?.getD (Value.str "N/A"),
    revenueLocal := revenue_local,
    revenueGroup := revenue_group,
    cogs := cogs,
    grossMargin := gross_margin,
    grossMarginPct := gross_margin_pct * 100,
    ebitda := ebitda,
    operatingProfit := operating_profit,
    operatingMarginPct := operating_margin_pct * 100,
    tax := tax,
    netIncome := net_income,
    netMarginPct := net_margin_pct * 100,
    cashFlow := cash_flow }

/-- The dictionary literal returned by `src/app.py` lines 30-47, key for key
and in source order. -/
def OutputRecord.toDict (o : OutputRecord) : List (String × Value) :=
  [("Scenario", o.scenario),
   ("Product", o.product),
   ("Region", o.region),
   ("Year", o.year),
   ("Revenue (Local)", Value.num o.revenueLocal),
   ("Revenue (Group)", Value.num o.revenueGroup),
   ("COGS", Value.num o.cogs),
   ("Gross Margin", Value.num o.grossMargin),
   ("Gross Margin %", Value.num o.grossMarginPct),
   ("EBITDA", Value.num o.ebitda),
   ("Operating Profit (EBIT)", Value.num o.operatingProfit),
   ("Operating Margin %", Value.num o.operatingMarginPct),
   ("Tax", Value.num o.tax),
   ("Net Income", Value.num o.netIncome),
   ("Net Margin %", Value.num o.netMarginPct),
   ("Cash Flow", Value.num o.cashFlow)]

end App

namespace Newapp

/-- The output record returned by `calculate_forecast_from_row` in
`src/newapp.py` (lines 67-86): as in `app.py` plus the passthrough
`Operating Expenses` and `Depreciation` fields. -/
structure OutputRecord where
  scenario : Value
  product : Value
  region : Value
  year : Value
  revenueLocal : ℚ
  revenueGroup : ℚ
  cogs : ℚ
  grossMargin : ℚ
  grossMarginPct : ℚ
  ebitda : ℚ
  operatingProfit : ℚ
  operatingMarginPct : ℚ
  tax : ℚ
  netIncome : ℚ
  netMarginPct : ℚ
  cashFlow : ℚ
  operatingExpenses : ℚ
  depreciation : ℚ
deriving DecidableEq

/-- `calculate_forecast_from_row` of `src/newapp.py` (lines 51-86).
Arithmetic identical to `app.py`; in addition the returned dictionary reads
`row['Operating Expenses']` and `row['Depreciation']` by bracket access
(lines 84-85), so a row with no `Depreciation` value raises `KeyError`,
modelled by returning `none`. -/
def calculate_forecast_from_row (row : InputRecord) : Option OutputRecord :=
  match row.depreciation? with
  | none => none
  | some dep =>
    let revenue_local := row.unitsSold * row.pricePerUnit
    let revenue_group := revenue_local * row.fxRate
    let cogs := revenue_local * row.cogsPct
    let gross_margin := revenue_local - cogs
    let ebitda := gross_margin - row.operatingExpenses + row.depreciation?.getD 0
    let operating_profit := ebitda - row.depreciation?.getD 0
    let tax := operating_profit * row.taxRate?.getD (25/100)
    let net_income := operating_profit - tax
    let gross_margin_pct := if revenue_local ≠ 0 then gross_margin / revenue_local else 0
    let operating_margin_pct := if revenue_local ≠ 0 then operating_profit / revenue_local else 0
    let net_margin_pct := if revenue_local ≠ 0 then net_income / revenue_local else 0
    let cash_flow := net_income + row.depreciation?.getD 0
    some
      { scenario := row.scenario,
        product := row.product,
        region := row.region?.getD (Value.str "Unknown"),
        year := row.year?.getD (Value.str "N/A"),
        revenueLocal := revenue_local,
        revenueGroup := revenue_group,
        cogs := cogs,
        grossMargin := gross_margin,
        grossMarginPct := gross_margin_pct * 100,
        ebitda := ebitda,
        operatingProfit := operating_profit,
        operatingMarginPct := operating_margin_pct * 100,
        tax := tax,
        netIncome := net_income,
        netMarginPct := net_margin_pct * 100,
        cashFlow := cash_flow,
        operatingExpenses := row.operatingExpenses,
        depreciation := dep }

/-- The dictionary literal returned by `src/newapp.py` lines 67-86, key for
key and in source order. -/
def OutputRecord.toDict (o : OutputRecord) : List (String × Value) :=
  [("Scenario", o.scenario),
   ("Product", o.product),
   ("Region", o.region),
   ("Year", o.year),
   ("Revenue (Local)", Value.num o.revenueLocal),
   ("Revenue (Group)", Value.num o.revenueGroup),
   ("COGS", Value.num o.cogs),
   ("Gross Margin", Value.num o.grossMargin),
   ("Gross Margin %", Value.num o.grossMarginPct),
   ("EBITDA", Value.num o.ebitda),
   ("Operating Profit (EBIT)", Value.num o.operatingProfit),
   ("Operating Margin %", Value.num o.operatingMarginPct),
   ("Tax", Value.num o.tax),
   ("Net Income", Value.num o.netIncome),
   ("Net Margin %", Value.num o.netMarginPct),
   ("Cash Flow", Value.num o.cashFlow),
   ("Operating Expenses", Value.num o.operatingExpenses),
   ("Depreciation", Value.num o.depreciation)]

end Newapp

/-- A pandas row: an association list from column name to cell value.
`List.lookup` returns the first binding, as a pandas column lookup does. -/
abbrev Row := List (String × Value)

/-- A pandas dataframe, at the granularity the engine consumes it
(`df.iterrows()`): a list of rows. -/
abbrev Frame := List Row

/-- Python truthiness of an optional numeric override: `None` and `0` are
falsy (the `if override_units:` guards of `src/app.py` lines 63-68 and
`src/newapp.py` lines 105-110). -/
def truthy : Option ℚ → Bool
  | none => false
  | some q => decide (q ≠ 0)

/-- Column-assignment on one row: replace the value of an existing column,
or append the column if absent (pandas `df[col] = v`, restricted to one
row). -/
def setCol (r : Row) (k : String) (v : Value) : Row :=
  if (List.lookup k r).isSome then
    r.map (fun kv => if kv.1 = k then (k, v) else kv)
  else
    r ++ [(k, v)]

/-- `df[col] = v`: broadcast one scalar to a whole column. -/
def setColumn (f : Frame) (k : String) (v : Value) : Frame :=
  f.map (fun r => setCol r k v)

/-- `col in df.columns` for a rectangular frame: every row carries the
column. -/
def hasColumn (f : Frame) (k : String) : Bool :=
  f.all (fun r => (List.lookup k r).isSome)

/-- Lines 52-55 of `src/app.py` (= lines 94-97 of `src/newapp.py`): fill a
missing `Tax Rate` column with 0.25 and a missing `Depreciation` column
with 0. -/
def fillDefaultColumns (f : Frame) : Frame :=
  let f1 := if hasColumn f "Tax Rate" then f else setColumn f "Tax Rate" (Value.num (25/100))
  if hasColumn f1 "Depreciation" then f1 else setColumn f1 "Depreciation" (Value.num 0)

/-- `str.strip()` on a column name: drop leading and trailing whitespace
characters.  (Core's `String.trim` is extensionally the same operation but
is defined by well-founded recursion on byte positions, which blocks
kernel evaluation; this structural version keeps the embedding
executable.) -/
def stripName (s : String) : String :=
  String.mk (((s.data.dropWhile Char.isWhitespace).reverse.dropWhile Char.isWhitespace).reverse)

/-- Line 91 of `src/newapp.py`: `df.columns = df.columns.str.strip()`. -/
def stripColumns (f : Frame) : Frame :=
  f.map (fun r => r.map (fun kv => (stripName kv.1, kv.2)))

/-- Lines 63-68 of `src/app.py` (= lines 105-110 of `src/newapp.py`): the
three truthiness-guarded override assignments, applied to the frame. -/
def applyOverrides (ou op ofx : Option ℚ) (f : Frame) : Frame :=
  let f1 := if truthy ou then setColumn f "Units Sold" (Value.num (ou.getD 0)) else f
  let f2 := if truthy op then setColumn f1 "Price per Unit" (Value.num (op.getD 0)) else f1
  if truthy ofx then setColumn f2 "FX Rate" (Value.num (ofx.getD 0)) else f2

/-- The `if override_units: df['Units Sold'] = override_units` assignment
(`src/app.py` lines 63-64, `src/newapp.py` lines 105-106), viewed at record
granularity: a truthy override replaces `UnitsSold` in every record. -/
def override_units (v : Option ℚ) (rs : List InputRecord) : List InputRecord :=
  if truthy v then rs.map (fun r => { r with unitsSold := v.getD 0 }) else rs

/-- `if override_price: df['Price per Unit'] = override_price`
(`src/app.py` lines 65-66), at record granularity. -/
def override_price (v : Option ℚ) (rs : List InputRecord) : List InputRecord :=
  if truthy v then rs.map (fun r => { r with pricePerUnit := v.getD 0 }) else rs

/-- `if override_fx: df['FX Rate'] = override_fx` (`src/app.py` lines
67-68), at record granularity. -/
def override_fx (v : Option ℚ) (rs : List InputRecord) : List InputRecord :=
  if truthy v then rs.map (fun r => { r with fxRate := v.getD 0 }) else rs

/-- A required numeric cell: `row[k]` followed by use in arithmetic.
`none` models both `KeyError` (column absent) and `TypeError` (cell not
numeric), either of which aborts the forecast pass. -/
def getNum (r : Row) (k : String) : Option ℚ :=
  match List.lookup k r with
  | some (Value.num q) => some q
  | _ => none

/-- An optional numeric cell, read with `row.get(k, default)`: the outer
`Option` is failure (present but non-numeric cell, a `TypeError` when
used), the inner one is presence. -/
def getNumOpt (r : Row) (k : String) : Option (Option ℚ) :=
  match List.lookup k r with
  | none => some none
  | some (Value.num q) => some (some q)
  | some (Value.str _) => none

/-- Materialise one pandas row into the engine's input record: bracket
lookups for the required columns of `calculate_forecast_from_row`
(`Scenario`, `Product`, `Units Sold`, `Price per Unit`, `FX Rate`,
`COGS %`, `Operating Expenses`), `row.get`-style optional lookups for
`Region`, `Year`, `Depreciation` and `Tax Rate`. -/
def parseRecord (row : Row) : Option InputRecord :=
  match List.lookup "Scenario" row, List.lookup "Product" row,
        getNum row "Units Sold", getNum row "Price per Unit",
        getNum row "FX Rate", getNum row "COGS %",
        getNum row "Operating Expenses",
        getNumOpt row "Depreciation", getNumOpt row "Tax Rate" with
  | some sc, some pr, some us, some ppu, some fx, some cg, some ox, some dep, some tr =>
      some { scenario := sc, product := pr,
             region? := List.lookup "Region" row,
             year? := List.lookup "Year" row,
             unitsSold := us, pricePerUnit := ppu, fxRate := fx,
             cogsPct := cg, operatingExpenses := ox,
             depreciation? := dep, taxRate? := tr }
  | _, _, _, _, _, _, _, _, _ => none

namespace App

/-- The forecast pass of `src/app.py` over an uploaded frame: fill the
default columns (lines 52-55), apply the truthiness-guarded overrides
(lines 63-68), then map `calculate_forecast_from_row` over the rows
(line 70).  `none` models the catch-all `except` branch: any row that
cannot be read aborts the whole pass.  `app.py` performs no column-name
trimming. -/
def runForecast (f : Frame) (ou op ofx : Option ℚ) : Option (List OutputRecord) :=
  let f1 := fillDefaultColumns f
  let f2 := applyOverrides ou op ofx f1
  f2.mapM (fun r => (parseRecord r).map calculate_forecast_from_row)

end App

namespace Newapp

/-- The forecast pass of `src/newapp.py`: strip column names (line 91),
fill the default columns (lines 94-97), apply the overrides (lines
105-110), then map `calculate_forecast_from_row` over the rows
(line 112). -/
def runForecast (f : Frame) (ou op ofx : Option ℚ) : Option (List OutputRecord) :=
  let f0 := stripColumns f
  let f1 := fillDefaultColumns f0
  let f2 := applyOverrides ou op ofx f1
  f2.mapM (fun r => (parseRecord r).bind calculate_forecast_from_row)

end Newapp

/-- `groupby(key).agg(sum, sum)`: one summary row per distinct key value,
carrying the sum of two selected metrics over the records with that key. -/
def groupSums {α : Type} (key : α → Value) (m₁ m₂ : α → ℚ) (l : List α) :
    List (Value × ℚ × ℚ) :=
  ((l.map key).dedup).map (fun g =>
    (g, ((l.filter (fun o => key o = g)).map m₁).sum,
        ((l.filter (fun o => key o = g)).map m₂).sum))

namespace App

/-- `filtered_df.groupby('Region').agg({'Net Income': 'sum', 'Cash Flow':
'sum'})` of `src/app.py` line 99. -/
def region_grouped (outs : List OutputRecord) : List (Value × ℚ × ℚ) :=
  groupSums (fun o => o.region) (fun o => o.netIncome) (fun o => o.cashFlow) outs

end App

namespace Newapp

/-- `filtered_df.groupby('Region').agg({'Net Income': 'sum', 'Cash Flow':
'sum'})` of `src/newapp.py` line 149. -/
def region_grouped (outs : List OutputRecord) : List (Value × ℚ × ℚ) :=
  groupSums (fun o => o.region) (fun o => o.netIncome) (fun o => o.cashFlow) outs

end Newapp

/-- The spec's worked example record (spec §8): Base / Product A / Asia /
2024, 1000 units at 25, FX 1.0, COGS 60 %, opex 20000, depreciation 2500,
tax rate 25 %. -/
def rEx : InputRecord :=
  { scenario := Value.str "Base",
    product := Value.str "A",
    region? := some (Value.str "Asia"),
    year? := some (Value.str "2024"),
    unitsSold := 1000,
    pricePerUnit := 25,
    fxRate := 1,
    cogsPct := 60/100,
    operatingExpenses := 20000,
    depreciation? := some 2500,
    taxRate? := some (25/100) }

section Helpers

/-- Looking a key up in an appended association list skips a prefix that
does not bind it. -/
theorem lookup_append_of_none {k : String} {r s : List (String × Value)}
    (h : List.lookup k r = none) : List.lookup k (r ++ s) = List.lookup k s := by
  induction r with
  | nil => rfl
  | cons kv t ih =>
      rw [List.cons_append]
      rw [List.lookup_cons] at h ⊢
      split at h
      · exact absurd h (by simp)
      · exact ih h

/-- Filtering after mapping is mapping after filtering the composed
predicate. -/
theorem filter_map_comm {α β : Type} (f : α → β) (p : β → Bool) (l : List α) :
    (l.map f).filter p = (l.filter (fun a => p (f a))).map f := by
  induction l with
  | nil => rfl
  | cons a t ih =>
      by_cases hp : p (f a) <;> simp [List.filter_cons, hp, ih]

/-- In a duplicate-free list that contains `a`, filtering for `a` yields
exactly `[a]`. -/
theorem filter_eq_singleton_of_nodup {α : Type} [DecidableEq α] {l : List α} {a : α}
    (hn : l.Nodup) (ha : a ∈ l) : l.filter (fun x => x = a) = [a] := by
  induction l with
  | nil => cases ha
  | cons b t ih =>
      rcases List.mem_cons.mp ha with hba | hat
      · subst hba
        have hnil : List.filter (fun x => decide (x = a)) t = [] :=
          List.filter_eq_nil_iff.mpr (fun x hx => by
            simp only [decide_eq_true_eq]
            exact fun hxa => (List.nodup_cons.mp hn).1 (hxa ▸ hx))
        simp [List.filter_cons, hnil]
      · have hba : ¬(b = a) := fun hba =>
          (List.nodup_cons.mp hn).1 (hba ▸ hat)
        rw [List.filter_cons, if_neg (by simpa using hba)]
        exact ih (List.nodup_cons.mp hn).2 hat

end Helpers

example : (App.calculate_forecast_from_row rEx).revenueLocal = 25000 := by
  norm_num [App.calculate_forecast_from_row, rEx]
example : (App.calculate_forecast_from_row rEx).ebitda = -7500 := by
  norm_num [App.calculate_forecast_from_row, rEx]
example : (App.calculate_forecast_from_row rEx).operatingProfit = -10000 := by
  norm_num [App.calculate_forecast_from_row, rEx]
example : (App.calculate_forecast_from_row rEx).tax = -2500 := by
  norm_num [App.calculate_forecast_from_row, rEx]
example : (App.calculate_forecast_from_row rEx).netIncome = -7500 := by
  norm_num [App.calculate_forecast_from_row, rEx]
example : (App.calculate_forecast_from_row rEx).cashFlow = -5000 := by
  norm_num [App.calculate_forecast_from_row, rEx]
example : (App.calculate_forecast_from_row rEx).grossMarginPct = 40 := by
  norm_num [App.calculate_forecast_from_row, rEx]
example : (App.calculate_forecast_from_row rEx).netMarginPct = -30 := by
  norm_num [App.calculate_forecast_from_row, rEx]
example : (Newapp.calculate_forecast_from_row rEx).map (fun o => o.depreciation) = some 2500 := by
  norm_num [Newapp.calculate_forecast_from_row, rEx]

theorem groupSums_filter_key {α : Type} (key : α → Value) (m₁ m₂ : α → ℚ)
    (l : List α) (g : Value) (h : g ∈ l.map key) :
    (groupSums key m₁ m₂ l).filter (fun e => e.1 = g)
      = [(g, ((l.filter (fun o => key o = g)).map m₁).sum,
            ((l.filter (fun o => key o = g)).map m₂).sum)] := by
  unfold groupSums
  rw [filter_map_comm]
  have hpred :
      (fun a => decide ((a, ((l.filter (fun o => key o = a)).map m₁).sum,
        ((l.filter (fun o => key o = a)).map m₂).sum).1 = g))
        = (fun a => decide (a = g)) := rfl
  rw [hpred]
  rw [filter_eq_singleton_of_nodup (l.map key).nodup_dedup (List.mem_dedup.mpr h)]
  rfl

/-- C1: for every InputRecord, the calculator returns an OutputRecord whose
derived fields satisfy, in order: RevenueLocal = UnitsSold * PricePerUnit,
RevenueGroup = RevenueLocal * FXRate, COGS = RevenueLocal * CogsPct,
GrossMargin = RevenueLocal - COGS, EBITDA = GrossMargin -
OperatingExpenses + Depreciation, OperatingProfit = EBITDA - Depreciation,
Tax = OperatingProfit * TaxRate, NetIncome = OperatingProfit - Tax,
CashFlow = NetIncome + Depreciation, and (for nonzero RevenueLocal) the
three percentage fields equal the corresponding ratio to RevenueLocal
multiplied by 100.  Stated for both `app.py`'s and `newapp.py`'s
calculator. -/
theorem calculate_forecast_fields (r : InputRecord) (o : App.OutputRecord)
    (ho : App.calculate_forecast_from_row r = o) :
    o.revenueLocal = r.unitsSold * r.pricePerUnit ∧
    o.revenueGroup = o.revenueLocal * r.fxRate ∧
    o.cogs = o.revenueLocal * r.cogsPct ∧
    o.grossMargin = o.revenueLocal - o.cogs ∧
    o.ebitda = o.grossMargin - r.operatingExpenses + r.depreciation?.getD 0 ∧
    o.operatingProfit = o.ebitda - r.depreciation?.getD 0 ∧
    o.tax = o.operatingProfit * r.taxRate?.getD (25/100) ∧
    o.netIncome = o.operatingProfit - o.tax ∧
    o.cashFlow = o.netIncome + r.depreciation?.getD 0 ∧
    (o.revenueLocal ≠ 0 →
      o.grossMarginPct = o.grossMargin / o.revenueLocal * 100 ∧
      o.operatingMarginPct = o.operatingProfit / o.revenueLocal * 100 ∧
      o.netMarginPct = o.netIncome / o.revenueLocal * 100) ∧
    (∀ o' : Newapp.OutputRecord, Newapp.calculate_forecast_from_row r = some o' →
      o'.revenueLocal = r.unitsSold * r.pricePerUnit ∧
      o'.revenueGroup = o'.revenueLocal * r.fxRate ∧
      o'.cogs = o'.revenueLocal * r.cogsPct ∧
      o'.grossMargin = o'.revenueLocal - o'.cogs ∧
      o'.ebitda = o'.grossMargin - r.operatingExpenses + r.depreciation?.getD 0 ∧
      o'.operatingProfit = o'.ebitda - r.depreciation?.getD 0 ∧
      o'.tax = o'.operatingProfit * r.taxRate?.getD (25/100) ∧
      o'.netIncome = o'.operatingProfit - o'.tax ∧
      o'.cashFlow = o'.netIncome + r.depreciation?.getD 0 ∧
      (o'.revenueLocal ≠ 0 →
        o'.grossMarginPct = o'.grossMargin / o'.revenueLocal * 100 ∧
        o'.operatingMarginPct = o'.operatingProfit / o'.revenueLocal * 100 ∧
        o'.netMarginPct = o'.netIncome / o'.revenueLocal * 100)) := by
  subst ho
  refine ⟨rfl, rfl, rfl, rfl, rfl, rfl, rfl, rfl, rfl, ?_, ?_⟩
  · intro h
    have h' : r.unitsSold * r.pricePerUnit ≠ 0 := h
    exact ⟨by simp [App.calculate_forecast_from_row, h'],
           by simp [App.calculate_forecast_from_row, h'],
           by simp [App.calculate_forecast_from_row, h']⟩
  · intro o' ho'
    cases hdep : r.depreciation? with
    | none => simp [Newapp.calculate_forecast_from_row, hdep] at ho'
    | some dep =>
        simp only [Newapp.calculate_forecast_from_row, hdep, Option.some.injEq] at ho'
        subst ho'
        refine ⟨rfl, rfl, rfl, rfl, by simp [hdep], by simp [hdep], rfl, rfl, by simp [hdep], ?_⟩
        intro h
        have h' : r.unitsSold * r.pricePerUnit ≠ 0 := h
        exact ⟨by simp [h'], by simp [h'], by simp [h']⟩

/-- Witness for C1 at the spec's worked example (1000 units at 25, nonzero
revenue). -/
theorem calculate_forecast_fields_witness :
    (App.calculate_forecast_from_row rEx).revenueLocal = rEx.unitsSold * rEx.pricePerUnit ∧
    (App.calculate_forecast_from_row rEx).grossMarginPct
      = (App.calculate_forecast_from_row rEx).grossMargin
          / (App.calculate_forecast_from_row rEx).revenueLocal * 100 ∧
    (Newapp.calculate_forecast_from_row rEx).map (fun o => o.revenueLocal)
      = some (rEx.unitsSold * rEx.pricePerUnit) := by
  obtain ⟨h1, -, -, -, -, -, -, -, -, hpct, hnew⟩ :=
    calculate_forecast_fields rEx (App.calculate_forecast_from_row rEx) rfl
  refine ⟨h1, (hpct (by norm_num [App.calculate_forecast_from_row, rEx])).1, ?_⟩
  cases ho : Newapp.calculate_forecast_from_row rEx with
  | none => exact absurd ho (by simp [Newapp.calculate_forecast_from_row, rEx])
  | some o => simp [(hnew o ho).1]

/-- C2: OperatingProfit equals GrossMargin - OperatingExpenses exactly (the
add-Depreciation-then-subtract-Depreciation round trip through EBITDA
cancels), while EBITDA remains an independently exposed output field equal
to GrossMargin - OperatingExpenses + Depreciation.  Stated for both
calculators; EBITDA's exposure is its presence in the returned
dictionary. -/
theorem operating_profit_round_trip (r : InputRecord) :
    (App.calculate_forecast_from_row r).operatingProfit
        = (App.calculate_forecast_from_row r).grossMargin - r.operatingExpenses ∧
    (App.calculate_forecast_from_row r).ebitda
        = (App.calculate_forecast_from_row r).grossMargin - r.operatingExpenses
            + r.depreciation?.getD 0 ∧
    List.lookup "EBITDA" (App.calculate_forecast_from_row r).toDict
        = some (Value.num (App.calculate_forecast_from_row r).ebitda) ∧
    ∀ o, Newapp.calculate_forecast_from_row r = some o →
      o.operatingProfit = o.grossMargin - r.operatingExpenses ∧
      o.ebitda = o.grossMargin - r.operatingExpenses + r.depreciation?.getD 0 ∧
      List.lookup "EBITDA" o.toDict = some (Value.num o.ebitda) := by
  refine ⟨?_, rfl, rfl, ?_⟩
  · show (App.calculate_forecast_from_row r).grossMargin - r.operatingExpenses
        + r.depreciation?.getD 0 - r.depreciation?.getD 0 = _
    ring
  · intro o ho
    cases hdep : r.depreciation? with
    | none => simp [Newapp.calculate_forecast_from_row, hdep] at ho
    | some dep =>
        simp only [Newapp.calculate_forecast_from_row, hdep, Option.some.injEq] at ho
        subst ho
        refine ⟨?_, by simp [hdep], rfl⟩
        show _ - r.operatingExpenses + (some dep).getD 0 - (some dep).getD 0 = _
        ring

/-- Witness for C2 at the spec's worked example. -/
theorem operating_profit_round_trip_witness :
    (App.calculate_forecast_from_row rEx).operatingProfit
        = (App.calculate_forecast_from_row rEx).grossMargin - rEx.operatingExpenses ∧
    (Newapp.calculate_forecast_from_row rEx).map
        (fun o => o.operatingProfit - (o.grossMargin - rEx.operatingExpenses))
      = some 0 := by
  obtain ⟨h1, -, -, h4⟩ := operating_profit_round_trip rEx
  refine ⟨h1, ?_⟩
  cases ho : Newapp.calculate_forecast_from_row rEx with
  | none => exact absurd ho (by simp [Newapp.calculate_forecast_from_row, rEx])
  | some o => simp [(h4 o ho).1]

/-- C3: when RevenueLocal = 0 (UnitsSold * PricePerUnit = 0) the guarded
divisions make all three margin percentage fields 0 instead of failing, in
both calculators. -/
theorem margin_pcts_zero_of_zero_revenue (r : InputRecord)
    (hz : r.unitsSold * r.pricePerUnit = 0) :
    (App.calculate_forecast_from_row r).grossMarginPct = 0 ∧
    (App.calculate_forecast_from_row r).operatingMarginPct = 0 ∧
    (App.calculate_forecast_from_row r).netMarginPct = 0 ∧
    ∀ o, Newapp.calculate_forecast_from_row r = some o →
      o.grossMarginPct = 0 ∧ o.operatingMarginPct = 0 ∧ o.netMarginPct = 0 := by
  refine ⟨by simp [App.calculate_forecast_from_row, hz],
          by simp [App.calculate_forecast_from_row, hz],
          by simp [App.calculate_forecast_from_row, hz], ?_⟩
  intro o ho
  cases hdep : r.depreciation? with
  | none => simp [Newapp.calculate_forecast_from_row, hdep] at ho
  | some dep =>
      simp only [Newapp.calculate_forecast_from_row, hdep, Option.some.injEq] at ho
      subst ho
      exact ⟨by simp [hz], by simp [hz], by simp [hz]⟩

/-- A zero-revenue record: zero units sold at a nonzero price. -/
def rZero : InputRecord :=
  { scenario := Value.str "Base",
    product := Value.str "B",
    region? := some (Value.str "Asia"),
    year? := some (Value.str "2024"),
    unitsSold := 0,
    pricePerUnit := 5,
    fxRate := 1,
    cogsPct := 60/100,
    operatingExpenses := 100,
    depreciation? := some 10,
    taxRate? := some (25/100) }

/-- Witness for C3 at a record with zero units sold. -/
theorem margin_pcts_zero_witness :
    (App.calculate_forecast_from_row rZero).grossMarginPct = 0 ∧
    (Newapp.calculate_forecast_from_row rZero).map (fun o => o.netMarginPct)
      = some 0 := by
  obtain ⟨h1, -, -, h4⟩ :=
    margin_pcts_zero_of_zero_revenue rZero (by norm_num [rZero])
  refine ⟨h1, ?_⟩
  cases ho : Newapp.calculate_forecast_from_row rZero with
  | none => exact absurd ho (by simp [Newapp.calculate_forecast_from_row, rZero])
  | some o => simp [(h4 o ho).2.2]

/-- C10: NetIncome = OperatingProfit * (1 - TaxRate); when OperatingProfit
is negative and TaxRate positive, Tax is negative (a tax credit) and
NetIncome exceeds OperatingProfit — tax is never floored at zero.  Stated
for both calculators. -/
theorem net_income_eq_after_tax (r : InputRecord) :
    (App.calculate_forecast_from_row r).netIncome
        = (App.calculate_forecast_from_row r).operatingProfit
            * (1 - r.taxRate?.getD (25/100)) ∧
    ((App.calculate_forecast_from_row r).operatingProfit < 0 →
      0 < r.taxRate?.getD (25/100) →
      (App.calculate_forecast_from_row r).tax < 0 ∧
      (App.calculate_forecast_from_row r).operatingProfit
        < (App.calculate_forecast_from_row r).netIncome) ∧
    ∀ o, Newapp.calculate_forecast_from_row r = some o →
      o.netIncome = o.operatingProfit * (1 - r.taxRate?.getD (25/100)) ∧
      (o.operatingProfit < 0 → 0 < r.taxRate?.getD (25/100) →
        o.tax < 0 ∧ o.operatingProfit < o.netIncome) := by
  refine ⟨by simp only [App.calculate_forecast_from_row]; ring, ⟨fun hop ht => ?_, ?_⟩⟩
  · have htax : (App.calculate_forecast_from_row r).tax < 0 :=
      mul_neg_of_neg_of_pos hop ht
    exact ⟨htax, by
      show (App.calculate_forecast_from_row r).operatingProfit
          < (App.calculate_forecast_from_row r).operatingProfit
              - (App.calculate_forecast_from_row r).tax
      linarith⟩
  · intro o ho
    cases hdep : r.depreciation? with
    | none => simp [Newapp.calculate_forecast_from_row, hdep] at ho
    | some dep =>
        simp only [Newapp.calculate_forecast_from_row, hdep, Option.some.injEq] at ho
        subst ho
        refine ⟨by dsimp only; ring, fun hop ht => ?_⟩
        have htax := mul_neg_of_neg_of_pos hop ht
        exact ⟨htax, by
          show _ < _ - _
          linarith⟩

/-- Witness for C10 at the spec's worked example, whose OperatingProfit is
-10000 with TaxRate 1/4: Tax is the -2500 credit and NetIncome -7500
exceeds OperatingProfit. -/
theorem net_income_eq_after_tax_witness :
    (App.calculate_forecast_from_row rEx).tax < 0 ∧
    (App.calculate_forecast_from_row rEx).operatingProfit
      < (App.calculate_forecast_from_row rEx).netIncome ∧
    (App.calculate_forecast_from_row rEx).netIncome
      = (App.calculate_forecast_from_row rEx).operatingProfit
          * (1 - rEx.taxRate?.getD (25/100)) := by
  obtain ⟨h1, h2, -⟩ := net_income_eq_after_tax rEx
  obtain ⟨ha, hb⟩ := h2 (by norm_num [App.calculate_forecast_from_row, rEx])
    (by norm_num [rEx])
  exact ⟨ha, hb, h1⟩

/-- A record with nonzero UnitsSold (2) and PricePerUnit (3), used to
exhibit the zero-override behaviour. -/
def c4row : InputRecord :=
  { scenario := Value.str "Base",
    product := Value.str "A",
    region? := none,
    year? := none,
    unitsSold := 2,
    pricePerUnit := 3,
    fxRate := 1,
    cogsPct := 0,
    operatingExpenses := 0,
    depreciation? := some 0,
    taxRate? := some 0 }

/-- Counterexample to C4 as stated: with override value V = 0 on a row with
UnitsSold 2 and PricePerUnit 3, the truthiness guard skips the override and
RevenueLocal stays 6, not V * PricePerUnit = 0. -/
theorem override_units_zero_counterexample :
    (override_units (some 0) [c4row]).map
        (fun r => (App.calculate_forecast_from_row r).revenueLocal)
      ≠ [0 * c4row.pricePerUnit] := by
  norm_num [override_units, truthy, App.calculate_forecast_from_row, c4row]

/-- C4 amended: for every NONZERO override value V for UnitsSold, applying
the override before calculation makes every resulting OutputRecord's
RevenueLocal equal V * PricePerUnit of that row, regardless of the row's
original UnitsSold (an override of 0 is skipped by the truthiness guard). -/
theorem override_units_sets_revenue (V : ℚ) (hV : V ≠ 0) (rs : List InputRecord) :
    (override_units (some V) rs).map
        (fun r => (App.calculate_forecast_from_row r).revenueLocal)
      = rs.map (fun r => V * r.pricePerUnit) := by
  have ht : truthy (some V) = true := by simp [truthy, hV]
  simp [override_units, ht, App.calculate_forecast_from_row]

/-- Witness for the amended C4 with override value 7. -/
theorem override_units_sets_revenue_witness :
    (override_units (some 7) [c4row]).map
        (fun r => (App.calculate_forecast_from_row r).revenueLocal)
      = [c4row].map (fun r => 7 * r.pricePerUnit) :=
  override_units_sets_revenue 7 (by norm_num) [c4row]

/-- C5: an override value of 0 supplied for any of the three override
fields is treated as no override — the input column is left unchanged and
the whole forecast pass returns exactly what it returns with no override,
in both scripts. -/
theorem zero_override_is_no_override (f : Frame) (rs : List InputRecord) :
    override_units (some 0) rs = rs ∧
    override_price (some 0) rs = rs ∧
    override_fx (some 0) rs = rs ∧
    applyOverrides (some 0) none none f = f ∧
    applyOverrides none (some 0) none f = f ∧
    applyOverrides none none (some 0) f = f ∧
    App.runForecast f (some 0) none none = App.runForecast f none none none ∧
    App.runForecast f none (some 0) none = App.runForecast f none none none ∧
    App.runForecast f none none (some 0) = App.runForecast f none none none ∧
    Newapp.runForecast f (some 0) none none = Newapp.runForecast f none none none ∧
    Newapp.runForecast f none (some 0) none = Newapp.runForecast f none none none ∧
    Newapp.runForecast f none none (some 0) = Newapp.runForecast f none none none := by
  refine ⟨?_, ?_, ?_, ?_, ?_, ?_, ?_, ?_, ?_, ?_, ?_, ?_⟩ <;>
    simp [override_units, override_price, override_fx, truthy,
      applyOverrides, App.runForecast, Newapp.runForecast]

/-- Counterexample to C7 as stated: `app.py`'s output dictionary carries no
`Operating Expenses` or `Depreciation` key at all, here evaluated at the
spec's worked example record. -/
theorem output_passthrough_counterexample :
    List.lookup "Operating Expenses" (App.calculate_forecast_from_row rEx).toDict = none ∧
    List.lookup "Depreciation" (App.calculate_forecast_from_row rEx).toDict = none :=
  ⟨rfl, rfl⟩

/-- C7 amended: `newapp.py`'s calculator returns, besides the derived
metrics, the passthrough Scenario/Product/Region/Year and the original
OperatingExpenses and Depreciation values unchanged; `app.py`'s calculator
passes through only Scenario/Product/Region/Year and omits
OperatingExpenses and Depreciation from its output. -/
theorem output_passthrough (r : InputRecord) (d : ℚ)
    (hd : r.depreciation? = some d) :
    (Newapp.calculate_forecast_from_row r).isSome = true ∧
    (∀ o, Newapp.calculate_forecast_from_row r = some o →
      List.lookup "Scenario" o.toDict = some r.scenario ∧
      List.lookup "Product" o.toDict = some r.product ∧
      List.lookup "Region" o.toDict = some (r.region?.getD (Value.str "Unknown")) ∧
      List.lookup "Year" o.toDict = some (r.year?.getD (Value.str "N/A")) ∧
      List.lookup "Operating Expenses" o.toDict = some (Value.num r.operatingExpenses) ∧
      List.lookup "Depreciation" o.toDict = some (Value.num d)) ∧
    List.lookup "Scenario" (App.calculate_forecast_from_row r).toDict = some r.scenario ∧
    List.lookup "Product" (App.calculate_forecast_from_row r).toDict = some r.product ∧
    List.lookup "Region" (App.calculate_forecast_from_row r).toDict
      = some (r.region?.getD (Value.str "Unknown")) ∧
    List.lookup "Year" (App.calculate_forecast_from_row r).toDict
      = some (r.year?.getD (Value.str "N/A")) := by
  refine ⟨by simp [Newapp.calculate_forecast_from_row, hd], ?_, rfl, rfl, rfl, rfl⟩
  intro o ho
  simp only [Newapp.calculate_forecast_from_row, hd, Option.some.injEq] at ho
  subst ho
  exact ⟨rfl, rfl, rfl, rfl, rfl, rfl⟩

/-- Witness for the amended C7 at the spec's worked example: `newapp.py`'s
output carries the original OperatingExpenses 20000 and Depreciation
2500. -/
theorem output_passthrough_witness :
    (Newapp.calculate_forecast_from_row rEx).isSome = true ∧
    (Newapp.calculate_forecast_from_row rEx).map
        (fun o => List.lookup "Operating Expenses" o.toDict)
      = some (some (Value.num 20000)) ∧
    (Newapp.calculate_forecast_from_row rEx).map
        (fun o => List.lookup "Depreciation" o.toDict)
      = some (some (Value.num 2500)) := by
  obtain ⟨h1, h2, -⟩ := output_passthrough rEx 2500 rfl
  refine ⟨h1, ?_, ?_⟩ <;>
  · cases ho : Newapp.calculate_forecast_from_row rEx with
    | none => exact absurd ho (by simp [Newapp.calculate_forecast_from_row, rEx])
    | some o =>
        obtain ⟨-, -, -, -, h5, h6⟩ := h2 o ho
        simp [h5, h6, rEx]

/-- C9: the Region aggregation produces exactly one summary row per
distinct Region value occurring in the outputs, and that row's NetIncome
and CashFlow are the sums of those metrics over the records with that
Region.  Stated for both scripts' `region_grouped`. -/
theorem region_grouped_sums (outs : List App.OutputRecord)
    (outs' : List Newapp.OutputRecord) (g : Value)
    (h : g ∈ outs.map (fun o => o.region))
    (h' : g ∈ outs'.map (fun o => o.region)) :
    (App.region_grouped outs).filter (fun e => e.1 = g)
      = [(g, ((outs.filter (fun o => o.region = g)).map (fun o => o.netIncome)).sum,
            ((outs.filter (fun o => o.region = g)).map (fun o => o.cashFlow)).sum)] ∧
    (Newapp.region_grouped outs').filter (fun e => e.1 = g)
      = [(g, ((outs'.filter (fun o => o.region = g)).map (fun o => o.netIncome)).sum,
            ((outs'.filter (fun o => o.region = g)).map (fun o => o.cashFlow)).sum)] :=
  ⟨groupSums_filter_key _ _ _ outs g h, groupSums_filter_key _ _ _ outs' g h'⟩

/-- An `app.py` output record with a given region, NetIncome and CashFlow
(other metric fields zero). -/
def mkAppOut (g : Value) (ni cf : ℚ) : App.OutputRecord :=
  { scenario := Value.str "Base", product := Value.str "A", region := g,
    year := Value.str "2024", revenueLocal := 0, revenueGroup := 0, cogs := 0,
    grossMargin := 0, grossMarginPct := 0, ebitda := 0, operatingProfit := 0,
    operatingMarginPct := 0, tax := 0, netIncome := ni, netMarginPct := 0,
    cashFlow := cf }

/-- A `newapp.py` output record with a given region, NetIncome and
CashFlow. -/
def mkNewappOut (g : Value) (ni cf : ℚ) : Newapp.OutputRecord :=
  { scenario := Value.str "Base", product := Value.str "A", region := g,
    year := Value.str "2024", revenueLocal := 0, revenueGroup := 0, cogs := 0,
    grossMargin := 0, grossMarginPct := 0, ebitda := 0, operatingProfit := 0,
    operatingMarginPct := 0, tax := 0, netIncome := ni, netMarginPct := 0,
    cashFlow := cf, operatingExpenses := 0, depreciation := 0 }

/-- Witness for C9: two Asia records with NetIncome 100 and 200 (plus a
Europe record on the `app.py` side) yield the Asia summary row with sum
300. -/
theorem region_grouped_sums_witness :
    (App.region_grouped
        [mkAppOut (Value.str "Asia") 100 100,
         mkAppOut (Value.str "Asia") 200 200,
         mkAppOut (Value.str "Europe") 50 50]).filter
        (fun e => e.1 = Value.str "Asia")
      = [(Value.str "Asia", 300, 300)] ∧
    (Newapp.region_grouped
        [mkNewappOut (Value.str "Asia") 100 100,
         mkNewappOut (Value.str "Asia") 200 200]).filter
        (fun e => e.1 = Value.str "Asia")
      = [(Value.str "Asia", 300, 300)] := by
  obtain ⟨h1, h2⟩ := region_grouped_sums
    [mkAppOut (Value.str "Asia") 100 100, mkAppOut (Value.str "Asia") 200 200,
     mkAppOut (Value.str "Europe") 50 50]
    [mkNewappOut (Value.str "Asia") 100 100, mkNewappOut (Value.str "Asia") 200 200]
    (Value.str "Asia") (by simp [mkAppOut]) (by simp [mkNewappOut])
  rw [h1, h2]
  simp +decide [mkAppOut, mkNewappOut]
  norm_num

theorem setCol_of_none {r : Row} {k : String} {v : Value}
    (h : List.lookup k r = none) : setCol r k v = r ++ [(k, v)] := by
  simp [setCol, h]

/-- C6: when the uploaded dataset has no `Tax Rate` column it is filled
with 0.25 for every row, and a missing `Depreciation` column is filled
with 0, before calculation; no error arises (the filled rows still parse
and both calculators accept them) and the derived metrics then use the
default values (Tax = OperatingProfit * 0.25, EBITDA = GrossMargin -
OperatingExpenses, CashFlow = NetIncome). -/
theorem missing_columns_filled_with_defaults (f : Frame)
    (h1 : ∀ r ∈ f, List.lookup "Tax Rate" r = none)
    (h2 : ∀ r ∈ f, List.lookup "Depreciation" r = none) :
    (fillDefaultColumns f).length = f.length ∧
    ∀ r' ∈ fillDefaultColumns f,
      List.lookup "Tax Rate" r' = some (Value.num (25/100)) ∧
      List.lookup "Depreciation" r' = some (Value.num 0) ∧
      ∀ rec, parseRecord r' = some rec →
        rec.taxRate? = some (25/100) ∧
        rec.depreciation? = some 0 ∧
        (App.calculate_forecast_from_row rec).tax
          = (App.calculate_forecast_from_row rec).operatingProfit * (25/100) ∧
        (App.calculate_forecast_from_row rec).ebitda
          = (App.calculate_forecast_from_row rec).grossMargin - rec.operatingExpenses ∧
        (App.calculate_forecast_from_row rec).cashFlow
          = (App.calculate_forecast_from_row rec).netIncome ∧
        (Newapp.calculate_forecast_from_row rec).isSome = true := by
  have hshape : fillDefaultColumns f
      = f.map (fun r => r ++ [("Tax Rate", Value.num (25/100)),
                             ("Depreciation", Value.num 0)]) := by
    cases hf : f with
    | nil => rfl
    | cons r0 t =>
        subst hf
        have hc1 : hasColumn (r0 :: t) "Tax Rate" = false := by
          simp [hasColumn, h1 r0 (List.mem_cons_self r0 t)]
        have hrows1 : setColumn (r0 :: t) "Tax Rate" (Value.num (25/100))
            = (r0 :: t).map (fun r => r ++ [("Tax Rate", Value.num (25/100))]) := by
          apply List.map_congr_left
          intro r hr
          exact setCol_of_none (h1 r hr)
        have hlookup2 : ∀ r ∈ (r0 :: t),
            List.lookup "Depreciation" (r ++ [("Tax Rate", Value.num (25/100))]) = none := by
          intro r hr
          rw [lookup_append_of_none (h2 r hr)]
          rfl
        have hc2 : hasColumn
            ((r0 :: t).map (fun r => r ++ [("Tax Rate", Value.num (25/100))]))
            "Depreciation" = false := by
          simp only [List.map_cons, hasColumn, List.all_cons,
            hlookup2 r0 (List.mem_cons_self r0 t), Option.isSome_none, Bool.false_and]
        unfold fillDefaultColumns
        simp only [hc1, Bool.false_eq_true, if_false]
        rw [hrows1]
        simp only [hc2, Bool.false_eq_true, if_false]
        rw [setColumn, List.map_map]
        apply List.map_congr_left
        intro r hr
        show setCol (r ++ [("Tax Rate", Value.num (25/100))]) "Depreciation" (Value.num 0)
            = r ++ [("Tax Rate", Value.num (25/100)), ("Depreciation", Value.num 0)]
        rw [setCol_of_none (hlookup2 r hr)]
        simp
  constructor
  · rw [hshape, List.length_map]
  intro r' hr'
  rw [hshape] at hr'
  obtain ⟨r, hr, rfl⟩ := List.mem_map.mp hr'
  have hTRl : List.lookup "Tax Rate"
      (r ++ [("Tax Rate", Value.num (25/100)), ("Depreciation", Value.num 0)])
      = some (Value.num (25/100)) := by
    rw [lookup_append_of_none (h1 r hr)]
    rfl
  have hDl : List.lookup "Depreciation"
      (r ++ [("Tax Rate", Value.num (25/100)), ("Depreciation", Value.num 0)])
      = some (Value.num 0) := by
    rw [lookup_append_of_none (h2 r hr)]
    rfl
  refine ⟨hTRl, hDl, ?_⟩
  intro rec hp
  unfold parseRecord at hp
  split at hp
  case _ sc pr us ppu fx cg ox dep tr hsc hpr hus hppu hfx hcg hox hdep htr =>
    rw [getNumOpt, hDl] at hdep
    rw [getNumOpt, hTRl] at htr
    obtain rfl := Option.some.inj hdep
    obtain rfl := Option.some.inj htr
    obtain rfl := Option.some.inj hp
    refine ⟨rfl, rfl, by simp [App.calculate_forecast_from_row],
      by simp [App.calculate_forecast_from_row],
      by simp [App.calculate_forecast_from_row],
      by simp [Newapp.calculate_forecast_from_row]⟩
  case _ => exact absurd hp (by simp)

/-- A row carrying the required columns only: no `Tax Rate`, no
`Depreciation`. -/
def f6row : Row :=
  [("Scenario", Value.str "Base"), ("Product", Value.str "A"),
   ("Units Sold", Value.num 10), ("Price per Unit", Value.num 5),
   ("FX Rate", Value.num 2), ("COGS %", Value.num (1/2)),
   ("Operating Expenses", Value.num 20)]

/-- `f6row` after the default-column fill. -/
def f6rowFilled : Row :=
  f6row ++ [("Tax Rate", Value.num (25/100)), ("Depreciation", Value.num 0)]

/-- The InputRecord parsed from `f6rowFilled`. -/
def rec6 : InputRecord :=
  { scenario := Value.str "Base", product := Value.str "A",
    region? := none, year? := none,
    unitsSold := 10, pricePerUnit := 5, fxRate := 2, cogsPct := 1/2,
    operatingExpenses := 20, depreciation? := some 0, taxRate? := some (25/100) }

/-- Witness for C6 on a one-row frame lacking both optional columns. -/
theorem missing_columns_filled_witness :
    List.lookup "Tax Rate" f6rowFilled = some (Value.num (25/100)) ∧
    List.lookup "Depreciation" f6rowFilled = some (Value.num 0) ∧
    rec6.taxRate? = some (25/100) ∧
    rec6.depreciation? = some 0 ∧
    (App.calculate_forecast_from_row rec6).tax
      = (App.calculate_forecast_from_row rec6).operatingProfit * (25/100) ∧
    (App.calculate_forecast_from_row rec6).cashFlow
      = (App.calculate_forecast_from_row rec6).netIncome ∧
    (Newapp.calculate_forecast_from_row rec6).isSome = true := by
  obtain ⟨-, hmain⟩ := missing_columns_filled_with_defaults [f6row]
    (by intro r hr; rw [List.mem_singleton] at hr; subst hr; rfl)
    (by intro r hr; rw [List.mem_singleton] at hr; subst hr; rfl)
  obtain ⟨hTR, hD, hrec⟩ := hmain f6rowFilled
    (by show f6rowFilled ∈ [f6rowFilled]; exact List.mem_singleton.mpr rfl)
  obtain ⟨h3, h4, h5, -, h6, h7⟩ := hrec rec6 rfl
  exact ⟨hTR, hD, h3, h4, h5, h6, h7⟩

/-- Two frames match up to trimming when they have the same shape, cell for
cell equal values, and column names equal after `str.strip()`. -/
def keysMatchUpToTrim (f g : Frame) : Bool :=
  decide (f.length = g.length) &&
  (f.zip g).all (fun rr =>
    decide (rr.1.length = rr.2.length) &&
    (rr.1.zip rr.2).all (fun kv =>
      decide (stripName kv.2.1 = stripName kv.1.1) && decide (kv.2.2 = kv.1.2)))

theorem stripRow_eq_of_match : ∀ (r r' : Row), r.length = r'.length →
    ((r.zip r').all (fun kv =>
      decide (stripName kv.2.1 = stripName kv.1.1) && decide (kv.2.2 = kv.1.2)) = true) →
    List.map (fun kv => (stripName kv.1, kv.2)) r'
      = List.map (fun kv => (stripName kv.1, kv.2)) r := by
  intro r
  induction r with
  | nil =>
      intro r' hl h
      cases r' with
      | nil => rfl
      | cons a t => simp at hl
  | cons a r₀ ih =>
      intro r' hl h
      cases r' with
      | nil => simp at hl
      | cons a' t =>
          simp only [List.zip_cons_cons, List.all_cons, Bool.and_eq_true,
            decide_eq_true_eq] at h
          obtain ⟨⟨hk, hv⟩, h3⟩ := h
          simp only [List.map_cons]
          rw [ih t (by simpa using hl) h3, hk, hv]

theorem stripColumns_eq_of_match : ∀ (f g : Frame), keysMatchUpToTrim f g = true →
    stripColumns g = stripColumns f := by
  intro f
  induction f with
  | nil =>
      intro g h
      cases g with
      | nil => rfl
      | cons r t => simp [keysMatchUpToTrim] at h
  | cons r f' ih =>
      intro g h
      cases g with
      | nil => simp [keysMatchUpToTrim] at h
      | cons r' g' =>
          simp only [keysMatchUpToTrim, List.zip_cons_cons, List.all_cons,
            Bool.and_eq_true, decide_eq_true_eq, List.length_cons] at h
          obtain ⟨hlen, ⟨hrlen, hrall⟩, hall⟩ := h
          have htail : keysMatchUpToTrim f' g' = true := by
            simp only [keysMatchUpToTrim, Bool.and_eq_true, decide_eq_true_eq]
            exact ⟨by omega, hall⟩
          simp only [stripColumns, List.map_cons]
          rw [stripRow_eq_of_match r r' hrlen (by simpa using hrall)]
          have := ih g' htail
          simp only [stripColumns] at this
          rw [this]

/-- C8 amended: `newapp.py` trims column-name whitespace before any lookup,
so its forecast pass treats a dataset whose headers differ only by
leading/trailing whitespace exactly like the trimmed dataset (required
columns with whitespace headers are still found); `app.py` performs no
trimming and its pass fails on such headers. -/
theorem trimmed_columns_found (f g : Frame) (ou op ofx : Option ℚ)
    (h : keysMatchUpToTrim f g = true) :
    Newapp.runForecast g ou op ofx = Newapp.runForecast f ou op ofx := by
  unfold Newapp.runForecast
  rw [stripColumns_eq_of_match f g h]

/-- A row with every required column present but most headers padded with
whitespace. -/
def padRow : Row :=
  [(" Scenario ", Value.str "Base"), (" Product", Value.str "A"),
   ("Region ", Value.str "Asia"), ("Year", Value.str "2024"),
   (" Units Sold ", Value.num 1000), ("Price per Unit ", Value.num 25),
   (" FX Rate", Value.num 1), ("COGS % ", Value.num 1),
   (" Operating Expenses ", Value.num 20000),
   ("Depreciation", Value.num 2500), (" Tax Rate", Value.num 1)]

/-- `padRow` with trimmed headers. -/
def cleanRow : Row :=
  [("Scenario", Value.str "Base"), ("Product", Value.str "A"),
   ("Region", Value.str "Asia"), ("Year", Value.str "2024"),
   ("Units Sold", Value.num 1000), ("Price per Unit", Value.num 25),
   ("FX Rate", Value.num 1), ("COGS %", Value.num 1),
   ("Operating Expenses", Value.num 20000),
   ("Depreciation", Value.num 2500), ("Tax Rate", Value.num 1)]

/-- Counterexample to C8 as stated: on a dataset whose headers carry
surrounding whitespace, `app.py`'s pass (which never trims) aborts with no
result, while the very same dataset succeeds under `newapp.py`. -/
theorem trimmed_columns_counterexample :
    App.runForecast [padRow] none none none = none ∧
    (Newapp.runForecast [padRow] none none none).isSome = true :=
  ⟨rfl, rfl⟩

/-- Witness for the amended C8: the whitespace-padded one-row dataset
produces exactly the same `newapp.py` forecast as its trimmed version. -/
theorem trimmed_columns_found_witness :
    Newapp.runForecast [padRow] none none none
      = Newapp.runForecast [cleanRow] none none none :=
  trimmed_columns_found [cleanRow] [padRow] none none none (by decide)
